import Mathlib

/-!
Shallow embedding of the 1D-Gantry-Development scripts
(`src/Aruco_DeltaX_Test.py`, `src/Aruco_DeltaX_Test_V2.py`,
`src/old/Aruco_DeltaX_Test.py`).

Modelling conventions:
* Python floats (pixel coordinates, deltas, timestamps) are modelled as `ℚ`;
  the arithmetic the scripts perform on them (sums, divisions by 2 and 4,
  subtraction, absolute value, comparisons) is exact on the inputs considered.
* Python `round` is round-half-to-even (`pyRound`).
* `min_send_interval` is hard-coded to `0.0` in every script, so the
  `now - last_send_time >= min_send_interval` throttle is always true and
  `last_send_time` is dropped from the state.
* UDP `sendto` is fallible; a frame input carries a `sendFail` flag saying
  whether the call raises.  The scripts catch the exception, print, and
  continue; the flag is reflected only in the `sendOk` output field.
* Timestamps (`time.time()`), detector output (`cv2.aruco.detectMarkers`),
  keyboard input and the ids typed by the operator are oracles carried by the
  per-frame input.
-/

namespace Gantry

/-- Python `round`: round half to even, on exact rationals. -/
def pyRound (q : ℚ) : ℤ :=
  if q - ⌊q⌋ < 1/2 then ⌊q⌋
  else if 1/2 < q - ⌊q⌋ then ⌊q⌋ + 1
  else if ⌊q⌋ % 2 = 0 then ⌊q⌋ else ⌊q⌋ + 1

theorem pyRound_intCast (n : ℤ) : pyRound (n : ℚ) = n := by
  unfold pyRound
  rw [Int.floor_intCast]
  norm_num

/-- The value of `pts[:, 0].mean()` on the reshaped `(4, 2)` corner array: the mean of the
corner x-coordinates (sum divided by the number of points). -/
def cornerMeanX (c : List (ℚ × ℚ)) : ℚ :=
  (c.map Prod.fst).sum / (c.length : ℚ)

/-- The `uint8` delta encoding of `Aruco_DeltaX_Test_V2.py` lines 210-215 and
`old/Aruco_DeltaX_Test.py` lines 175-183:
`half_width = w / 2.0 if w else 1.0`, `norm = deltaX / half_width`,
`scaled = int(round(norm * 127.0 + 128.0))`, `scaled = max(0, min(254, scaled))`,
packed with `struct.pack` format `!B`. -/
def encodeDeltaUint8 (w d : ℚ) : ℕ :=
  (max 0 (min 254 (pyRound (d / (if w = 0 then 1 else w / 2) * 127 + 128)))).toNat

/-- The byte `struct.pack` format `!B` makes of `255`: the "no marker found" byte. -/
def noMarkerSentinel : ℕ := 255

/-- The sort key `lambda x: abs(x[2])` used on `(id, cx, deltaX)` items. -/
def absKey (it : ℤ × ℚ × ℚ) : ℚ := |it.2.2|

/-- Python's `sorted(items, key=lambda x: abs(x[2]))`: a stable sort, modelled
by Mathlib's (stable) insertion sort on the non-strict key order. -/
def sortItems (items : List (ℤ × ℚ × ℚ)) : List (ℤ × ℚ × ℚ) :=
  List.insertionSort (fun a b => absKey a ≤ absKey b) items

/-- The selection `items_sorted[0]` guarded by `if items:`: the head of the stable sort,
`none` when no item exists. -/
def bestOf (items : List (ℤ × ℚ × ℚ)) : Option (ℤ × ℚ × ℚ) :=
  (sortItems items).head?

/-- The first element of a list attaining the minimal key (specification-side
description of the head of a stable sort by that key). -/
def firstMinBy {α : Type} (key : α → ℚ) : List α → Option α
  | [] => none
  | x :: xs =>
    match firstMinBy key xs with
    | none => some x
    | some m => if key x ≤ key m then some x else some m

theorem firstMinBy_nil {α : Type} (key : α → ℚ) : firstMinBy key [] = none := rfl

theorem firstMinBy_cons {α : Type} (key : α → ℚ) (x : α) (xs : List α) :
    firstMinBy key (x :: xs) =
      match firstMinBy key xs with
      | none => some x
      | some m => if key x ≤ key m then some x else some m := rfl

/-- The head of the stable insertion sort by a key is the first minimiser. -/
theorem head_insertionSort_eq_firstMinBy {α : Type} (key : α → ℚ) (l : List α) :
    (List.insertionSort (fun a b => key a ≤ key b) l).head? = firstMinBy key l := by
  induction l with
  | nil => rfl
  | cons x xs ih =>
    rw [firstMinBy_cons]
    show (List.orderedInsert _ x (List.insertionSort _ xs)).head? = _
    cases h : List.insertionSort (fun a b => key a ≤ key b) xs with
    | nil =>
      rw [h] at ih
      rw [← ih]
      rfl
    | cons m rest =>
      rw [h] at ih
      rw [← ih]
      by_cases hxm : key x ≤ key m
      · simp [List.orderedInsert, hxm]
      · simp [List.orderedInsert, hxm]

/-- The function `firstMinBy` returns an element of the list that minimises the key and is
strictly smaller than every element before it. -/
theorem firstMinBy_spec {α : Type} (key : α → ℚ) (l : List α) (hne : l ≠ []) :
    ∃ i : Fin l.length, firstMinBy key l = some (l.get i)
      ∧ (∀ j : Fin l.length, key (l.get i) ≤ key (l.get j))
      ∧ (∀ j : Fin l.length, (j : ℕ) < (i : ℕ) → key (l.get i) < key (l.get j)) := by
  induction l with
  | nil => exact absurd rfl hne
  | cons x xs ih =>
    cases xs with
    | nil =>
      refine ⟨⟨0, by simp⟩, rfl, ?_, ?_⟩
      · intro j
        have hj : j = ⟨0, by simp⟩ := by
          apply Fin.ext
          have := j.isLt
          simp at this
          simpa using this
        rw [hj]
      · intro j hj
        simp at hj
    | cons y ys =>
      obtain ⟨i, h1, h2, h3⟩ := ih (by simp)
      have hfm : firstMinBy key (x :: y :: ys) =
          if key x ≤ key ((y :: ys).get i) then some x else some ((y :: ys).get i) := by
        rw [firstMinBy_cons, h1]
      rw [hfm]
      by_cases hxm : key x ≤ key ((y :: ys).get i)
      · rw [if_pos hxm]
        refine ⟨⟨0, by simp⟩, rfl, ?_, ?_⟩
        · intro j
          rcases j with ⟨jv, hjv⟩
          cases jv with
          | zero => exact le_refl _
          | succ k =>
            exact le_trans hxm (h2 ⟨k, by simpa using hjv⟩)
        · intro j hj
          simp at hj
      · rw [if_neg hxm]
        have hlt : key ((y :: ys).get i) < key x := not_le.mp hxm
        refine ⟨⟨i.val + 1, Nat.succ_lt_succ i.isLt⟩, rfl, ?_, ?_⟩
        · intro j
          rcases j with ⟨jv, hjv⟩
          cases jv with
          | zero => exact le_of_lt hlt
          | succ k =>
            exact h2 ⟨k, by simpa using hjv⟩
        · intro j hj
          rcases j with ⟨jv, hjv⟩
          cases jv with
          | zero => exact hlt
          | succ k =>
            exact h3 ⟨k, by simpa using hjv⟩ (by simpa using hj)

/-- The selection `bestOf` is the first item attaining the minimal `abs(deltaX)`. -/
theorem bestOf_eq_firstMinBy (items : List (ℤ × ℚ × ℚ)) :
    bestOf items = firstMinBy absKey items :=
  head_insertionSort_eq_firstMinBy absKey items

/-- Building `(int(marker_id), float(cx), float(deltaX))` items from
`(id, centroid)` pairs, `deltaX = cx - screen_center_x`,
`screen_center_x = w / 2` (`Aruco_DeltaX_Test_V2.py` lines 157-165 with no
attack-mode filter, `Aruco_DeltaX_Test.py` lines 84-88). -/
def mkItemsPairs (w : ℚ) (pairs : List (ℤ × ℚ)) : List (ℤ × ℚ × ℚ) :=
  pairs.map fun p => (p.1, p.2, p.2 - w / 2)

/-- The marker selected as best from `(id, centroid)` pairs in a frame of
width `w`: `sorted(items, key=lambda x: abs(x[2]))[0]`. -/
def bestMarker (w : ℚ) (pairs : List (ℤ × ℚ)) : Option (ℤ × ℚ × ℚ) :=
  bestOf (mkItemsPairs w pairs)

/-- Claim C1: for every non-empty list of `(id, centroid)` pairs detected in a
frame of width `w`, the marker selected as best is the one minimising
`|centroid - w/2|`; when several markers attain the same minimal absolute
offset, the one occurring first in the input order is selected. -/
theorem c1_best_marker (w : ℚ) (pairs : List (ℤ × ℚ)) (hne : pairs ≠ []) :
    ∃ i : Fin pairs.length,
      bestMarker w pairs =
        some ((pairs.get i).1, (pairs.get i).2, (pairs.get i).2 - w / 2)
      ∧ (∀ j : Fin pairs.length,
          |(pairs.get i).2 - w / 2| ≤ |(pairs.get j).2 - w / 2|)
      ∧ (∀ j : Fin pairs.length, (j : ℕ) < (i : ℕ) →
          |(pairs.get i).2 - w / 2| < |(pairs.get j).2 - w / 2|) := by
  have hlen : (mkItemsPairs w pairs).length = pairs.length := List.length_map _ _
  have hne' : mkItemsPairs w pairs ≠ [] := by
    simp only [mkItemsPairs, ne_eq, List.map_eq_nil_iff]
    exact hne
  obtain ⟨i, h1, h2, h3⟩ := firstMinBy_spec absKey (mkItemsPairs w pairs) hne'
  have cast1 : i.val < pairs.length := by
    rw [← hlen]; exact i.isLt
  have cast2 : ∀ j : Fin pairs.length, j.val < (mkItemsPairs w pairs).length := by
    intro j; rw [hlen]; exact j.isLt
  have hget : ∀ (j : Fin (mkItemsPairs w pairs).length) (hjp : j.val < pairs.length),
      (mkItemsPairs w pairs).get j =
        ((pairs.get ⟨j.val, hjp⟩).1, (pairs.get ⟨j.val, hjp⟩).2,
          (pairs.get ⟨j.val, hjp⟩).2 - w / 2) := by
    intro j hjp
    simp [mkItemsPairs, List.get_eq_getElem, List.getElem_map]
  have hb : bestMarker w pairs = firstMinBy absKey (mkItemsPairs w pairs) :=
    bestOf_eq_firstMinBy (mkItemsPairs w pairs)
  refine ⟨⟨i.val, cast1⟩, ?_, ?_, ?_⟩
  · rw [hb, h1]
    exact congrArg some (hget i cast1)
  · intro j
    have h2' := h2 ⟨j.val, cast2 j⟩
    rw [hget i cast1, hget ⟨j.val, cast2 j⟩ j.isLt] at h2'
    simpa [absKey] using h2'
  · intro j hj
    have h3' := h3 ⟨j.val, cast2 j⟩ hj
    rw [hget i cast1, hget ⟨j.val, cast2 j⟩ j.isLt] at h3'
    simpa [absKey] using h3'

/-- A concrete detection list: two markers tied at absolute offset 10 from
the centre of a width-40 frame. -/
def samplePairs : List (ℤ × ℚ) := [(1, 10), (2, 30)]

theorem c1_best_marker_witness :
    samplePairs ≠ [] ∧
    ∃ i : Fin samplePairs.length,
      bestMarker 40 samplePairs =
        some ((samplePairs.get i).1, (samplePairs.get i).2,
          (samplePairs.get i).2 - 40 / 2)
      ∧ (∀ j : Fin samplePairs.length,
          |(samplePairs.get i).2 - 40 / 2| ≤ |(samplePairs.get j).2 - 40 / 2|)
      ∧ (∀ j : Fin samplePairs.length, (j : ℕ) < (i : ℕ) →
          |(samplePairs.get i).2 - 40 / 2| < |(samplePairs.get j).2 - 40 / 2|) :=
  ⟨by decide, c1_best_marker 40 samplePairs (by decide)⟩

/-- The `uint8` encoding as the spec words it:
`clamp(round((d / (w/2)) * 127 + 128), 0, 254)`. -/
def specUint8Encoding (w d : ℚ) : ℕ :=
  (max 0 (min 254 (pyRound (d / (w / 2) * 127 + 128)))).toNat

theorem encodeDeltaUint8_le_254 (w d : ℚ) : encodeDeltaUint8 w d ≤ 254 := by
  unfold encodeDeltaUint8
  have h : max 0 (min 254 (pyRound (d / (if w = 0 then 1 else w / 2) * 127 + 128)))
      ≤ (254 : ℤ) :=
    max_le (by norm_num) (min_le_left _ _)
  omega

theorem encodeDeltaUint8_zero (w : ℚ) : encodeDeltaUint8 w 0 = 128 := by
  unfold encodeDeltaUint8
  rw [zero_div, zero_mul, zero_add]
  have h : pyRound ((128 : ℤ) : ℚ) = 128 := pyRound_intCast 128
  norm_num at h
  rw [h]
  decide

/-- The five game-mode labels of `Aruco_DeltaX_Test_V2.py`. -/
inductive Mode where
  | idle
  | calibrate
  | selection
  | attack
  | endMode
deriving DecidableEq

/-- The dict `mode_map` (V2 lines 63-69): number keys 1-5 to mode labels. -/
def mode_map : List (ℕ × Mode) :=
  [(1, .idle), (2, .calibrate), (3, .selection), (4, .attack), (5, .endMode)]

/-- The lookup `mode_map.get(num, None)` (V2 line 256). -/
def modeFromKey (n : ℕ) : Option Mode := mode_map.lookup n

/-- The helper `send_mode_uint8` (V2 lines 75-92): scan `mode_map` for the first number
mapped to the given label, then pack it with `struct.pack` format `!B`
(one byte); `none` models "nothing sent". -/
def send_mode_uint8 (m : Mode) : Option (List ℕ) :=
  match (mode_map.find? fun p => decide (p.2 = m)).map Prod.fst with
  | none => none
  | some n => some [n]

/-- One appended record of the pandas log: `{"timestamp": ..., "id": ...,
"marker_x": ..., "deltaX": ...}`. -/
structure LogRow where
  timestamp : ℚ
  id : ℤ
  marker_x : ℚ
  deltaX : ℚ
deriving DecidableEq

/-- The key read by `cv2.waitKey` in one iteration: nothing, the quit key
(`'c'`), or a digit. -/
inductive Key where
  | noKey
  | quit
  | digit (n : ℕ)
deriving DecidableEq

/-- Per-iteration input oracles of the V2 main loop: timestamp, frame width,
detector output (marker id with its four corner points), whether `sendto`
raises, the key pressed, and the ids the operator would type into the
selection prompt. -/
structure FrameV2 where
  t : ℚ
  w : ℚ
  dets : List (ℤ × List (ℚ × ℚ))
  sendFail : Bool
  key : Key
  selIds : List ℤ
deriving DecidableEq

/-- Mutable state of the V2 main loop: `current_mode`, `selected_ids`, `log`. -/
structure StV2 where
  mode : Mode
  selected : List ℤ
  log : List LogRow
deriving DecidableEq

/-- V2 lines 157-165: build `(id, cx, deltaX)` items from detections; in
attack mode only markers whose id is in `selected_ids` are considered. -/
def mkItemsV2 (mode : Mode) (selected : List ℤ) (w : ℚ)
    (dets : List (ℤ × List (ℚ × ℚ))) : List (ℤ × ℚ × ℚ) :=
  dets.filterMap fun d =>
    let cx := cornerMeanX d.2
    let deltaX := cx - w / 2
    if mode = Mode.attack then
      if d.1 ∈ selected then some (d.1, cx, deltaX) else none
    else some (d.1, cx, deltaX)

/-- Result of the marker phase of one V2 iteration. -/
structure ProcOutV2 where
  selected : List ℤ
  logAppend : List LogRow
  sent : Option ℕ
deriving DecidableEq

/-- V2 lines 141-146: the detections the loop sees — detection runs only in
selection or attack mode, otherwise `ids` stays `None` (empty here). -/
def detGateV2 (mode : Mode) (dets : List (ℤ × List (ℚ × ℚ))) :
    List (ℤ × List (ℚ × ℚ)) :=
  if mode = Mode.selection ∨ mode = Mode.attack then dets else []

/-- The marker phase of one V2 loop iteration (lines 134-239): detection runs
only in selection or attack mode; when markers were detected, the best item is
logged, in attack mode a centred selected target is removed and the encoded
delta byte is sent; when no markers were detected, attack mode sends the
`255` sentinel and every other mode sends nothing. -/
def processFrameV2 (mode : Mode) (selected : List ℤ) (t w : ℚ)
    (dets : List (ℤ × List (ℚ × ℚ))) : ProcOutV2 :=
  if (detGateV2 mode dets).isEmpty then
    { selected := selected, logAppend := [],
      sent := if mode = Mode.attack then some noMarkerSentinel else none }
  else
    match bestOf (mkItemsV2 mode selected w (detGateV2 mode dets)) with
    | some b =>
      { selected :=
          if mode = Mode.attack ∧ selected ≠ [] ∧ b.1 ∈ selected ∧ |b.2.2| < 5 then
            selected.filter fun s => decide (s ≠ b.1)
          else selected
        logAppend := [⟨t, b.1, b.2.1, b.2.2⟩]
        sent := if mode = Mode.attack then some (encodeDeltaUint8 w b.2.2) else none }
    | none =>
      { selected := selected, logAppend := [], sent := none }

/-- Result of the keyboard phase of one V2 iteration. -/
structure KeyOutV2 where
  mode : Mode
  selected : List ℤ
  modeMsgs : List Mode
  quit : Bool
deriving DecidableEq

/-- V2 key dispatch (lines 247-273): `'c'` quits; a digit 1-5 switches to the
mapped mode and announces it; entering selection immediately runs the
selection UI, stores the typed ids and automatically enters (and announces)
attack mode. -/
def keyStepV2 (mode : Mode) (selected : List ℤ) (selIds : List ℤ) (key : Key) :
    KeyOutV2 :=
  match key with
  | Key.quit => { mode := mode, selected := selected, modeMsgs := [], quit := true }
  | Key.noKey => { mode := mode, selected := selected, modeMsgs := [], quit := false }
  | Key.digit n =>
    match modeFromKey n with
    | none => { mode := mode, selected := selected, modeMsgs := [], quit := false }
    | some m =>
      if m = Mode.selection then
        { mode := Mode.attack, selected := selIds,
          modeMsgs := [Mode.selection, Mode.attack], quit := false }
      else
        { mode := m, selected := selected, modeMsgs := [m], quit := false }

/-- Observable output of one V2 loop iteration. -/
structure OutV2 where
  detectionRan : Bool
  sent : Option ℕ
  sendOk : Bool
  modeMsgs : List Mode
  quit : Bool
deriving DecidableEq

/-- One full V2 loop iteration: marker phase, then keyboard phase. -/
def frameStepV2 (s : StV2) (f : FrameV2) : StV2 × OutV2 :=
  let p := processFrameV2 s.mode s.selected f.t f.w f.dets
  let k := keyStepV2 s.mode p.selected f.selIds f.key
  (⟨k.mode, k.selected, s.log ++ p.logAppend⟩,
   { detectionRan := decide (s.mode = Mode.selection ∨ s.mode = Mode.attack)
     sent := p.sent
     sendOk := p.sent.isSome && !f.sendFail
     modeMsgs := k.modeMsgs
     quit := k.quit })

/-- A V2 iteration transmits the `255` byte exactly when the mode is attack
and the detector found no markers. -/
theorem sent_sentinel_iff (s : StV2) (f : FrameV2) :
    (frameStepV2 s f).2.sent = some noMarkerSentinel ↔
      s.mode = Mode.attack ∧ f.dets = [] := by
  rcases s with ⟨mode, selected, log⟩
  rcases f with ⟨t, w, dets, sendFail, key, selIds⟩
  cases mode with
  | idle =>
    cases dets <;> simp [frameStepV2, processFrameV2, detGateV2, noMarkerSentinel]
  | calibrate =>
    cases dets <;> simp [frameStepV2, processFrameV2, detGateV2, noMarkerSentinel]
  | endMode =>
    cases dets <;> simp [frameStepV2, processFrameV2, detGateV2, noMarkerSentinel]
  | selection =>
    cases dets with
    | nil => simp [frameStepV2, processFrameV2, detGateV2, noMarkerSentinel]
    | cons d ds =>
      cases hb : bestOf (mkItemsV2 Mode.selection selected w (d :: ds)) <;>
        simp [frameStepV2, processFrameV2, detGateV2, hb, noMarkerSentinel]
  | attack =>
    cases dets with
    | nil => simp [frameStepV2, processFrameV2, detGateV2, noMarkerSentinel]
    | cons d ds =>
      cases hb : bestOf (mkItemsV2 Mode.attack selected w (d :: ds)) with
      | none => simp [frameStepV2, processFrameV2, detGateV2, hb, noMarkerSentinel]
      | some b =>
        have h := encodeDeltaUint8_le_254 w b.2.2
        simp [frameStepV2, processFrameV2, detGateV2, hb, noMarkerSentinel]
        omega

/-- Claim C2: for every frame width `w > 0` and every delta `d`, the uint8
encoding of `d` is `clamp(round((d / (w/2)) * 127 + 128), 0, 254)`, so the
encoded byte lies in `[0, 254]` (`d = 0` encodes to `128`, the encoder never
produces `255`), and the byte `255` is sent only as the no-marker sentinel
when no marker was found. -/
theorem c2_uint8_encoding (w d : ℚ) (hw : 0 < w) (s : StV2) (f : FrameV2) :
    encodeDeltaUint8 w d = specUint8Encoding w d
    ∧ encodeDeltaUint8 w d ≤ 254
    ∧ encodeDeltaUint8 w 0 = 128
    ∧ encodeDeltaUint8 w d ≠ 255
    ∧ ((frameStepV2 s f).2.sent = some noMarkerSentinel ↔
        s.mode = Mode.attack ∧ f.dets = []) := by
  refine ⟨?_, encodeDeltaUint8_le_254 w d, encodeDeltaUint8_zero w, ?_,
    sent_sentinel_iff s f⟩
  · unfold encodeDeltaUint8 specUint8Encoding
    rw [if_neg hw.ne']
  · have h := encodeDeltaUint8_le_254 w d
    omega

theorem c2_uint8_encoding_witness :
    (0 : ℚ) < 640
    ∧ (encodeDeltaUint8 640 100 = specUint8Encoding 640 100
      ∧ encodeDeltaUint8 640 100 ≤ 254
      ∧ encodeDeltaUint8 640 0 = 128
      ∧ encodeDeltaUint8 640 100 ≠ 255
      ∧ ((frameStepV2 ⟨Mode.attack, [], []⟩
            ⟨0, 640, [], false, Key.noKey, []⟩).2.sent = some noMarkerSentinel ↔
          (⟨Mode.attack, [], []⟩ : StV2).mode = Mode.attack
          ∧ (⟨0, 640, [], false, Key.noKey, []⟩ : FrameV2).dets = [])) :=
  ⟨by decide, c2_uint8_encoding 640 100 (by decide) ⟨Mode.attack, [], []⟩
    ⟨0, 640, [], false, Key.noKey, []⟩⟩

/-- The five game-mode labels of `old/Aruco_DeltaX_Test.py`
(`idle, calibrate, finding, attack, end`). -/
inductive OldMode where
  | idle
  | calibrate
  | finding
  | attack
  | endMode
deriving DecidableEq

/-- The label text of an old-script mode. -/
def oldModeName : OldMode → String
  | .idle => "idle"
  | .calibrate => "calibrate"
  | .finding => "finding"
  | .attack => "attack"
  | .endMode => "end"

/-- The datagram text built by `send_mode` (old lines 68-79):
`f"MODE:{mode}".encode('utf-8')` — every character is ASCII, one byte each,
so the byte count is the string length. -/
def send_mode_msg (m : OldMode) : String := "MODE:" ++ oldModeName m

/-- The helper `send_mode` (old lines 68-79): returns early when the mode equals
`last_gamemode`, otherwise sends `MODE:<name>` and records the mode as the
last announced one.  Result: (datagram sent if any, new `last_gamemode`). -/
def send_mode (last_gamemode : Option OldMode) (m : OldMode) :
    Option String × Option OldMode :=
  if last_gamemode = some m then (none, last_gamemode)
  else (some (send_mode_msg m), some m)

/-- The `(id, cx, deltaX)` items restricted to selected ids — identical in
`Aruco_DeltaX_Test.py` lines 78-88 and `old/Aruco_DeltaX_Test.py`
lines 119-129. -/
def mkItemsSelected (selected : List ℤ) (w : ℚ)
    (dets : List (ℤ × List (ℚ × ℚ))) : List (ℤ × ℚ × ℚ) :=
  dets.filterMap fun d =>
    if d.1 ∈ selected then
      some (d.1, cornerMeanX d.2, cornerMeanX d.2 - w / 2)
    else none

/-- The assignment `dead[k] = v` on the dict modelled as an association list. -/
def setDead (dead : List (ℤ × Bool)) (k : ℤ) (v : Bool) : List (ℤ × Bool) :=
  dead.map fun p => if p.1 = k then (p.1, v) else p

/-- Result of the marker phase of one old-script iteration. -/
structure ProcOutOld where
  gamemode : OldMode
  last_gamemode : Option OldMode
  dead : List (ℤ × Bool)
  logAppend : List LogRow
  sent : Option ℕ
  modeMsg : Option String
  detectionRan : Bool
deriving DecidableEq

/-- The marker phase of one old-script iteration (old lines 104-212):
detection runs whenever the mode is not idle; with a best (selected) marker
the dead flag of that target is set to whether `-1.0 <= deltaX <= 1.0`, the
mode jumps to `end` (announced through `send_mode`) once every selected
target is dead, and the encoded delta byte is sent; when no marker was
detected the `255` sentinel is sent unconditionally, whatever the mode. -/
def detGateOld (gamemode : OldMode) (dets : List (ℤ × List (ℚ × ℚ))) :
    List (ℤ × List (ℚ × ℚ)) :=
  if gamemode = OldMode.idle then [] else dets

/-- Old lines 152-161: `dead[best_id] = (-1.0 <= deltaX <= 1.0)`, guarded by
`best_id in dead`. -/
def updateDead (dead : List (ℤ × Bool)) (b : ℤ × ℚ × ℚ) : List (ℤ × Bool) :=
  if (dead.lookup b.1).isSome then
    setDead dead b.1 (decide (-1 ≤ b.2.2 ∧ b.2.2 ≤ 1))
  else dead

/-- Old line 164: `selected_ids and all(dead.get(t, False) for t in selected_ids)`. -/
def allDead (selected : List ℤ) (dead : List (ℤ × Bool)) : Bool :=
  !selected.isEmpty && selected.all fun x => (dead.lookup x).getD false

def processFrameOld (gamemode : OldMode) (last_gamemode : Option OldMode)
    (selected : List ℤ) (dead : List (ℤ × Bool)) (t w : ℚ)
    (dets : List (ℤ × List (ℚ × ℚ))) : ProcOutOld :=
  if (detGateOld gamemode dets).isEmpty then
    { gamemode := gamemode, last_gamemode := last_gamemode, dead := dead,
      logAppend := [], sent := some noMarkerSentinel, modeMsg := none,
      detectionRan := decide (¬gamemode = OldMode.idle) }
  else
    match bestOf (mkItemsSelected selected w (detGateOld gamemode dets)) with
    | some b =>
      if allDead selected (updateDead dead b) then
        { gamemode := OldMode.endMode,
          last_gamemode := (send_mode last_gamemode OldMode.endMode).2,
          dead := updateDead dead b,
          logAppend := [⟨t, b.1, b.2.1, b.2.2⟩],
          sent := some (encodeDeltaUint8 w b.2.2),
          modeMsg := (send_mode last_gamemode OldMode.endMode).1,
          detectionRan := decide (¬gamemode = OldMode.idle) }
      else
        { gamemode := gamemode, last_gamemode := last_gamemode,
          dead := updateDead dead b,
          logAppend := [⟨t, b.1, b.2.1, b.2.2⟩],
          sent := some (encodeDeltaUint8 w b.2.2), modeMsg := none,
          detectionRan := decide (¬gamemode = OldMode.idle) }
    | none =>
      { gamemode := gamemode, last_gamemode := last_gamemode, dead := dead,
        logAppend := [], sent := none, modeMsg := none,
        detectionRan := decide (¬gamemode = OldMode.idle) }

/-- Result of the keyboard phase of one old-script iteration. -/
structure KeyOutOld where
  gamemode : OldMode
  last_gamemode : Option OldMode
  selected : List ℤ
  dead : List (ℤ × Bool)
  modeMsg : Option String
  quit : Bool
deriving DecidableEq

/-- Old key dispatch (lines 237-260): digits 1-5 jump to
idle/calibrate/finding/attack/end from any mode and announce the new mode
through `send_mode`; key 3 additionally runs the selection UI, and when the
UI found markers it replaces the selected set and resets the dead flags;
`c` quits. -/
def keyStepOld (gamemode : OldMode) (last_gamemode : Option OldMode)
    (selected : List ℤ) (dead : List (ℤ × Bool)) (found : List ℤ) (key : Key) :
    KeyOutOld :=
  match key with
  | Key.digit 1 =>
    { gamemode := OldMode.idle, last_gamemode := (send_mode last_gamemode OldMode.idle).2,
      selected := selected, dead := dead,
      modeMsg := (send_mode last_gamemode OldMode.idle).1, quit := false }
  | Key.digit 2 =>
    { gamemode := OldMode.calibrate,
      last_gamemode := (send_mode last_gamemode OldMode.calibrate).2,
      selected := selected, dead := dead,
      modeMsg := (send_mode last_gamemode OldMode.calibrate).1, quit := false }
  | Key.digit 3 =>
    { gamemode := OldMode.finding,
      last_gamemode := (send_mode last_gamemode OldMode.finding).2,
      selected := if found.isEmpty then selected else found,
      dead := if found.isEmpty then dead else found.map fun tid => (tid, false),
      modeMsg := (send_mode last_gamemode OldMode.finding).1, quit := false }
  | Key.digit 4 =>
    { gamemode := OldMode.attack,
      last_gamemode := (send_mode last_gamemode OldMode.attack).2,
      selected := selected, dead := dead,
      modeMsg := (send_mode last_gamemode OldMode.attack).1, quit := false }
  | Key.digit 5 =>
    { gamemode := OldMode.endMode,
      last_gamemode := (send_mode last_gamemode OldMode.endMode).2,
      selected := selected, dead := dead,
      modeMsg := (send_mode last_gamemode OldMode.endMode).1, quit := false }
  | Key.quit =>
    { gamemode := gamemode, last_gamemode := last_gamemode, selected := selected,
      dead := dead, modeMsg := none, quit := true }
  | _ =>
    { gamemode := gamemode, last_gamemode := last_gamemode, selected := selected,
      dead := dead, modeMsg := none, quit := false }

/-- Claim C3 (amended): in V2 the game mode gates detection and transmission
per iteration — in idle, calibrate, and end modes no detection is performed
and no delta datagram (marker value or no-marker sentinel) is sent; in the
old script, idle disables detection but the no-marker sentinel datagram is
still sent every frame, so delta transmission is not disabled there. -/
theorem c3_mode_gating (selected : List ℤ) (log : List LogRow) (f : FrameV2)
    (lastm : Option OldMode) (selOld : List ℤ) (dead : List (ℤ × Bool))
    (t w : ℚ) (dets : List (ℤ × List (ℚ × ℚ))) :
    ((frameStepV2 ⟨Mode.idle, selected, log⟩ f).2.detectionRan = false
      ∧ (frameStepV2 ⟨Mode.idle, selected, log⟩ f).2.sent = none)
    ∧ ((frameStepV2 ⟨Mode.calibrate, selected, log⟩ f).2.detectionRan = false
      ∧ (frameStepV2 ⟨Mode.calibrate, selected, log⟩ f).2.sent = none)
    ∧ ((frameStepV2 ⟨Mode.endMode, selected, log⟩ f).2.detectionRan = false
      ∧ (frameStepV2 ⟨Mode.endMode, selected, log⟩ f).2.sent = none)
    ∧ (processFrameOld OldMode.idle lastm selOld dead t w dets).detectionRan = false
    ∧ (processFrameOld OldMode.idle lastm selOld dead t w dets).sent
        = some noMarkerSentinel :=
  ⟨⟨rfl, rfl⟩, ⟨rfl, rfl⟩, ⟨rfl, rfl⟩, rfl, rfl⟩

/-- Claim C3 counterexample: in the old script with the mode idle (detection
disabled) a delta datagram is still sent each frame — the no-marker sentinel
byte 255. -/
theorem c3_counterexample :
    (processFrameOld OldMode.idle none [] [] 0 640 []).sent = some 255 := rfl

/-- Claim C4 (amended): the mode variable ranges over exactly the five
labels, and mode keys act from any current mode with no transition graph: in
both scripts pressing key k first sets (and announces) the label mapped to
k; in V2 pressing key 3 (selection) then runs the selection flow and leaves
the handler in attack mode, so only keys 1, 2, 4, 5 leave the mode at their
mapped label there, while in the old script all five keys do. -/
theorem c4_mode_keys (m : Mode) (selected selIds : List ℤ)
    (mo : OldMode) (lastm : Option OldMode) (selOld : List ℤ)
    (dead : List (ℤ × Bool)) (found : List ℤ) :
    (∀ m2 : Mode, m2 = Mode.idle ∨ m2 = Mode.calibrate ∨ m2 = Mode.selection
      ∨ m2 = Mode.attack ∨ m2 = Mode.endMode)
    ∧ (keyStepV2 m selected selIds (Key.digit 1)).mode = Mode.idle
    ∧ (keyStepV2 m selected selIds (Key.digit 2)).mode = Mode.calibrate
    ∧ (keyStepV2 m selected selIds (Key.digit 3)).modeMsgs
        = [Mode.selection, Mode.attack]
    ∧ (keyStepV2 m selected selIds (Key.digit 3)).mode = Mode.attack
    ∧ (keyStepV2 m selected selIds (Key.digit 4)).mode = Mode.attack
    ∧ (keyStepV2 m selected selIds (Key.digit 5)).mode = Mode.endMode
    ∧ (keyStepOld mo lastm selOld dead found (Key.digit 1)).gamemode = OldMode.idle
    ∧ (keyStepOld mo lastm selOld dead found (Key.digit 2)).gamemode
        = OldMode.calibrate
    ∧ (keyStepOld mo lastm selOld dead found (Key.digit 3)).gamemode
        = OldMode.finding
    ∧ (keyStepOld mo lastm selOld dead found (Key.digit 4)).gamemode
        = OldMode.attack
    ∧ (keyStepOld mo lastm selOld dead found (Key.digit 5)).gamemode
        = OldMode.endMode :=
  ⟨fun m2 => by cases m2 <;> simp, rfl, rfl, rfl, rfl, rfl, rfl,
    rfl, rfl, rfl, rfl, rfl⟩

/-- Claim C4 counterexample: in V2, pressing the selection key (3) does not
leave the mode at the label mapped to that key — the handler ends in attack
mode, not selection mode. -/
theorem c4_counterexample :
    (keyStepV2 Mode.idle [] [] (Key.digit 3)).mode = Mode.attack
    ∧ Mode.attack ≠ Mode.selection :=
  ⟨rfl, by decide⟩

/-- Claim C5 (amended): in V2 every datagram announcing a mode change
carries the mode as a single byte holding the mode number 1-5; in the old
script mode changes are announced as the ASCII text `MODE:<name>` — more
than one byte — not as a 1-byte code. -/
theorem c5_mode_datagrams (m : Mode) (mo : OldMode) :
    (∃ n, send_mode_uint8 m = some [n] ∧ 1 ≤ n ∧ n ≤ 5 ∧ n < 256
      ∧ ([n] : List ℕ).length = 1)
    ∧ (send_mode_msg mo).length = "MODE:".length + (oldModeName mo).length
    ∧ 2 ≤ (send_mode_msg mo).length := by
  constructor
  · cases m with
    | idle => exact ⟨1, rfl, by decide, by decide, by decide, rfl⟩
    | calibrate => exact ⟨2, rfl, by decide, by decide, by decide, rfl⟩
    | selection => exact ⟨3, rfl, by decide, by decide, by decide, rfl⟩
    | attack => exact ⟨4, rfl, by decide, by decide, by decide, rfl⟩
    | endMode => exact ⟨5, rfl, by decide, by decide, by decide, rfl⟩
  · cases mo <;> exact ⟨by decide, by decide⟩

/-- Claim C5 counterexample: the old script announces a mode change with the
9-byte ASCII datagram `MODE:idle`, not a 1-byte code. -/
theorem c5_counterexample :
    send_mode_msg OldMode.idle = "MODE:idle" ∧ ("MODE:idle").length ≠ 1 :=
  ⟨rfl, by decide⟩

/-- Claim C6: for every detected marker, its horizontal pixel centroid is the
sum of its four corner x-coordinates divided by four, and its delta is that
centroid minus half the frame width. -/
theorem c6_centroid_delta (mode : Mode) (selected : List ℤ) (w : ℚ)
    (dets : List (ℤ × List (ℚ × ℚ))) (mid : ℤ) (p0 p1 p2 p3 : ℚ × ℚ)
    (hmem : (mid, [p0, p1, p2, p3]) ∈ dets)
    (hok : mode = Mode.attack → mid ∈ selected) :
    cornerMeanX [p0, p1, p2, p3] = (p0.1 + p1.1 + p2.1 + p3.1) / 4
    ∧ (mid, (p0.1 + p1.1 + p2.1 + p3.1) / 4,
        (p0.1 + p1.1 + p2.1 + p3.1) / 4 - w / 2) ∈ mkItemsV2 mode selected w dets := by
  have hmean : cornerMeanX [p0, p1, p2, p3] = (p0.1 + p1.1 + p2.1 + p3.1) / 4 := by
    simp [cornerMeanX]
    ring
  refine ⟨hmean, ?_⟩
  apply List.mem_filterMap.mpr
  refine ⟨(mid, [p0, p1, p2, p3]), hmem, ?_⟩
  show (if mode = Mode.attack then
      if mid ∈ selected then
        some (mid, cornerMeanX [p0, p1, p2, p3], cornerMeanX [p0, p1, p2, p3] - w / 2)
      else none
    else some (mid, cornerMeanX [p0, p1, p2, p3], cornerMeanX [p0, p1, p2, p3] - w / 2))
    = some (mid, (p0.1 + p1.1 + p2.1 + p3.1) / 4,
        (p0.1 + p1.1 + p2.1 + p3.1) / 4 - w / 2)
  rw [hmean]
  by_cases hA : mode = Mode.attack
  · rw [if_pos hA, if_pos (hok hA)]
  · rw [if_neg hA]

/-- A concrete corner square whose x-mean is 3, seen in selection mode. -/
def sampleDets : List (ℤ × List (ℚ × ℚ)) :=
  [(2, [(1, 0), (2, 0), (3, 0), (6, 0)])]

theorem c6_centroid_delta_witness :
    ((2 : ℤ), [((1 : ℚ), (0 : ℚ)), (2, 0), (3, 0), (6, 0)]) ∈ sampleDets
    ∧ (Mode.selection = Mode.attack → (2 : ℤ) ∈ ([] : List ℤ))
    ∧ (cornerMeanX [((1 : ℚ), (0 : ℚ)), (2, 0), (3, 0), (6, 0)]
        = ((1 : ℚ) + 2 + 3 + 6) / 4
      ∧ ((2 : ℤ), ((1 : ℚ) + 2 + 3 + 6) / 4, ((1 : ℚ) + 2 + 3 + 6) / 4 - 640 / 2)
          ∈ mkItemsV2 Mode.selection [] 640 sampleDets) :=
  ⟨by decide, by decide,
    c6_centroid_delta Mode.selection [] 640 sampleDets 2 (1, 0) (2, 0) (3, 0) (6, 0)
      (by decide) (by decide)⟩

/-- Per-iteration input oracles of `Aruco_DeltaX_Test.py`'s main loop:
timestamp, frame width, detector output. -/
structure FrameV1 where
  t : ℚ
  w : ℚ
  dets : List (ℤ × List (ℚ × ℚ))
deriving DecidableEq

/-- The row appended for a frame when a qualifying (selected) marker is
found: timestamp, id, marker_x and deltaX of the best item
(`Aruco_DeltaX_Test.py` lines 90-107); `none` when no item qualifies. -/
def rowOfFrameV1 (selected : List ℤ) (f : FrameV1) : Option LogRow :=
  (bestOf (mkItemsSelected selected f.w f.dets)).map fun b =>
    ⟨f.t, b.1, b.2.1, b.2.2⟩

/-- The append `log = log._append(...)` for a single frame. -/
def stepV1 (selected : List ℤ) (log : List LogRow) (f : FrameV1) : List LogRow :=
  match rowOfFrameV1 selected f with
  | some r => log ++ [r]
  | none => log

/-- The log accumulated over the processed frames of one V1 run. -/
def runV1Log (selected : List ℤ) (frames : List FrameV1) : List LogRow :=
  frames.foldl (stepV1 selected) []

/-- The list `columns = ["timestamp", "id", "marker_x", "deltaX"]`
(`Aruco_DeltaX_Test.py` line 56). -/
def csvColumnsV1 : List String := ["timestamp", "id", "marker_x", "deltaX"]

/-- The CSV written at process exit (`Aruco_DeltaX_Test.py` lines 124-129):
header plus the log rows, and nothing when the log is empty. -/
def csvFileV1 (log : List LogRow) : Option (List String × List LogRow) :=
  if log.isEmpty then none else some (csvColumnsV1, log)

/-- How many `to_csv` calls run at process exit. -/
def csvWritesV1 (log : List LogRow) : ℕ :=
  if log.isEmpty then 0 else 1

theorem foldl_stepV1 (selected : List ℤ) :
    ∀ (frames : List FrameV1) (acc : List LogRow),
      frames.foldl (stepV1 selected) acc
        = acc ++ frames.filterMap (rowOfFrameV1 selected) := by
  intro frames
  induction frames with
  | nil => intro acc; simp
  | cons f fs ih =>
    intro acc
    rw [List.foldl_cons, ih]
    cases h : rowOfFrameV1 selected f <;> simp [stepV1, h, List.filterMap_cons]

theorem length_filterMap_eq_countP {α β : Type} (g : α → Option β) (l : List α) :
    (l.filterMap g).length = l.countP (fun a => (g a).isSome) := by
  induction l with
  | nil => rfl
  | cons a l ih =>
    cases h : g a <;> simp [List.filterMap_cons, h, List.countP_cons, ih]

/-- Claim C7 (amended): the CSV log has exactly the four columns
timestamp, id, marker_x, deltaX; it contains exactly one row for every
processed frame in which a qualifying marker was found and no row for any
other frame; it is written at most once, at process exit, and only when at
least one row was logged — a run with no qualifying frame writes no CSV. -/
theorem c7_csv_log (selected : List ℤ) (frames : List FrameV1) :
    runV1Log selected frames = frames.filterMap (rowOfFrameV1 selected)
    ∧ (runV1Log selected frames).length
        = frames.countP (fun f => (rowOfFrameV1 selected f).isSome)
    ∧ csvColumnsV1 = ["timestamp", "id", "marker_x", "deltaX"]
    ∧ csvColumnsV1.length = 4
    ∧ csvWritesV1 (runV1Log selected frames) ≤ 1
    ∧ (csvWritesV1 (runV1Log selected frames) = 1 ↔
        runV1Log selected frames ≠ []) := by
  have h1 : runV1Log selected frames = frames.filterMap (rowOfFrameV1 selected) := by
    unfold runV1Log
    rw [foldl_stepV1]
    simp
  refine ⟨h1, ?_, rfl, rfl, ?_, ?_⟩
  · rw [h1, length_filterMap_eq_countP]
  · unfold csvWritesV1
    split <;> omega
  · unfold csvWritesV1
    split_ifs with h
    · simp only [List.isEmpty_iff] at h
      simp [h]
    · simp only [List.isEmpty_iff] at h
      simp [h]

/-- Claim C7 counterexample: a run whose only processed frame has no
qualifying marker logs nothing and writes the CSV zero times, so the CSV is
not written exactly once at process exit. -/
theorem c7_counterexample :
    csvWritesV1 (runV1Log [1] [⟨0, 640, []⟩]) ≠ 1
    ∧ runV1Log [1] [⟨0, 640, []⟩] = [] :=
  ⟨by decide, by decide⟩

/-- Per-iteration input oracles of the old script's main loop. -/
structure FrameOld where
  t : ℚ
  w : ℚ
  dets : List (ℤ × List (ℚ × ℚ))
  sendFail : Bool
  key : Key
  found : List ℤ
deriving DecidableEq

/-- Mutable state of the old script's main loop. -/
structure StOld where
  gamemode : OldMode
  last_gamemode : Option OldMode
  selected : List ℤ
  dead : List (ℤ × Bool)
  log : List LogRow
deriving DecidableEq

/-- Observable output of one old-script loop iteration. -/
structure OutOld where
  detectionRan : Bool
  sent : Option ℕ
  sendOk : Bool
  modeMsgs : List String
  quit : Bool
deriving DecidableEq

/-- One full old-script loop iteration: marker phase, then keyboard phase. -/
def frameStepOld (s : StOld) (f : FrameOld) : StOld × OutOld :=
  let p := processFrameOld s.gamemode s.last_gamemode s.selected s.dead f.t f.w f.dets
  let k := keyStepOld p.gamemode p.last_gamemode s.selected p.dead f.found f.key
  (⟨k.gamemode, k.last_gamemode, k.selected, k.dead, s.log ++ p.logAppend⟩,
   { detectionRan := p.detectionRan
     sent := p.sent
     sendOk := p.sent.isSome && !f.sendFail
     modeMsgs := p.modeMsg.toList ++ k.modeMsg.toList
     quit := k.quit })

/-- Claim C8: a UDP send failure is caught and only printed: in both scripts
it leaves the successor state, the attempted datagram and the loop-exit
decision exactly as in the failure-free iteration (so the next iteration
attempts the send again with no memory of the failure, and there is at most
one delta-send attempt per iteration), and the loop exits only on the quit
key, never because a send raised. -/
theorem c8_send_failure_ignored (s : StV2) (f : FrameV2) (so : StOld) (g : FrameOld) :
    (frameStepV2 s f).1 = (frameStepV2 s ⟨f.t, f.w, f.dets, false, f.key, f.selIds⟩).1
    ∧ (frameStepV2 s f).2.sent
        = (frameStepV2 s ⟨f.t, f.w, f.dets, false, f.key, f.selIds⟩).2.sent
    ∧ (frameStepV2 s f).2.quit
        = (frameStepV2 s ⟨f.t, f.w, f.dets, false, f.key, f.selIds⟩).2.quit
    ∧ ((frameStepV2 s f).2.quit = true ↔ f.key = Key.quit)
    ∧ (frameStepOld so g).1
        = (frameStepOld so ⟨g.t, g.w, g.dets, false, g.key, g.found⟩).1
    ∧ (frameStepOld so g).2.sent
        = (frameStepOld so ⟨g.t, g.w, g.dets, false, g.key, g.found⟩).2.sent
    ∧ (frameStepOld so g).2.quit
        = (frameStepOld so ⟨g.t, g.w, g.dets, false, g.key, g.found⟩).2.quit
    ∧ ((frameStepOld so g).2.quit = true ↔ g.key = Key.quit) := by
  refine ⟨rfl, rfl, rfl, ?_, rfl, rfl, rfl, ?_⟩
  · rcases f with ⟨t, w, dets, sf, key, selIds⟩
    cases key with
    | noKey => simp [frameStepV2, keyStepV2]
    | quit => simp [frameStepV2, keyStepV2]
    | digit n =>
      cases h : modeFromKey n with
      | none => simp [frameStepV2, keyStepV2, h]
      | some m =>
        by_cases hm : m = Mode.selection <;> simp [frameStepV2, keyStepV2, h, hm]
  · rcases g with ⟨t, w, dets, sf, key, found⟩
    cases key with
    | noKey => simp [frameStepOld, keyStepOld]
    | quit => simp [frameStepOld, keyStepOld]
    | digit n =>
      rcases n with _ | _ | _ | _ | _ | _ | k <;> simp [frameStepOld, keyStepOld]

/-- The V2 marker phase only ever shrinks `selected_ids`. -/
theorem processFrameV2_selected_sub (mode : Mode) (selected : List ℤ) (t w : ℚ)
    (dets : List (ℤ × List (ℚ × ℚ))) (x : ℤ)
    (hx : x ∈ (processFrameV2 mode selected t w dets).selected) : x ∈ selected := by
  unfold processFrameV2 at hx
  split at hx
  · exact hx
  · split at hx
    · dsimp only at hx
      split at hx
      · exact (List.mem_filter.mp hx).1
      · exact hx
    · exact hx

/-- Claim C9: in `Aruco_DeltaX_Test_V2`, during attack mode, whenever the
best marker is in the selected target set and its `|deltaX|` is strictly
below 5.0, that marker's id is removed from the selected set in the same
iteration; and the marker phase never adds members to the selected set. -/
theorem c9_attack_removal (selected : List ℤ) (t w : ℚ)
    (dets : List (ℤ × List (ℚ × ℚ))) (b : ℤ × ℚ × ℚ)
    (hb : bestOf (mkItemsV2 Mode.attack selected w dets) = some b)
    (hmem : b.1 ∈ selected) (habs : |b.2.2| < 5) :
    b.1 ∉ (processFrameV2 Mode.attack selected t w dets).selected
    ∧ ∀ (dets2 : List (ℤ × List (ℚ × ℚ))) (x : ℤ),
        x ∈ (processFrameV2 Mode.attack selected t w dets2).selected →
        x ∈ selected := by
  refine ⟨?_, fun dets2 x hx => processFrameV2_selected_sub _ _ _ _ _ _ hx⟩
  cases dets with
  | nil => exact Option.noConfusion hb
  | cons d ds =>
    have hne : selected ≠ [] := List.ne_nil_of_mem hmem
    unfold processFrameV2
    simp [detGateV2, hb, hne, hmem, habs, List.mem_filter]

/-- A frame with one selected marker 1 pixel right of the centre of a
width-640 frame. -/
def nearCentreDets : List (ℤ × List (ℚ × ℚ)) :=
  [(7, [(321, 0), (321, 0), (321, 0), (321, 0)])]

theorem c9_attack_removal_witness :
    (7 : ℤ) ∉ (processFrameV2 Mode.attack [7] 0 640 nearCentreDets).selected
    ∧ ∀ (dets2 : List (ℤ × List (ℚ × ℚ))) (x : ℤ),
        x ∈ (processFrameV2 Mode.attack [7] 0 640 dets2).selected →
        x ∈ ([7] : List ℤ) :=
  c9_attack_removal [7] 0 640 nearCentreDets (7, 321, 1)
    (by norm_num [bestOf, sortItems, mkItemsV2, cornerMeanX, nearCentreDets,
      List.insertionSort])
    (by decide) (by decide)

theorem lookup_setDead (dead : List (ℤ × Bool)) (k : ℤ) (v : Bool)
    (h : (dead.lookup k).isSome = true) :
    (setDead dead k v).lookup k = some v := by
  induction dead with
  | nil => simp [List.lookup] at h
  | cons p ps ih =>
    rcases p with ⟨a, bv⟩
    by_cases hp : k = a
    · subst hp
      simp [setDead, List.lookup_cons]
    · have hp2 : ¬(a = k) := fun hh => hp hh.symm
      simp only [setDead, List.map_cons]
      rw [if_neg hp2]
      have hbeq : (k == a) = false := beq_false_of_ne hp
      simp only [List.lookup_cons, hbeq, Bool.false_eq_true, if_false] at h ⊢
      exact ih h

theorem lookup_updateDead (dead : List (ℤ × Bool)) (b : ℤ × ℚ × ℚ)
    (h : (dead.lookup b.1).isSome = true) :
    (updateDead dead b).lookup b.1 = some (decide (-1 ≤ b.2.2 ∧ b.2.2 ≤ 1)) := by
  unfold updateDead
  rw [if_pos h]
  exact lookup_setDead dead b.1 _ h

/-- Claim C10: in the old script, a selected target (a key of the dead dict)
is marked dead when it is the best marker and its deltaX lies in `[-1, 1]`,
and marked alive again when observed outside that range; and as soon as
every selected target is marked dead the game mode becomes `end` in the same
iteration, announced over UDP (unless `end` was already the last announced
mode), without any keypress. -/
theorem c10_dead_and_end (gamemode : OldMode) (lastm : Option OldMode)
    (selected : List ℤ) (dead : List (ℤ × Bool)) (t w : ℚ)
    (dets : List (ℤ × List (ℚ × ℚ))) (b : ℤ × ℚ × ℚ)
    (hmode : gamemode ≠ OldMode.idle)
    (hb : bestOf (mkItemsSelected selected w dets) = some b)
    (hkey : (dead.lookup b.1).isSome = true) :
    ((-1 ≤ b.2.2 ∧ b.2.2 ≤ 1) →
      (processFrameOld gamemode lastm selected dead t w dets).dead.lookup b.1
        = some true)
    ∧ (¬(-1 ≤ b.2.2 ∧ b.2.2 ≤ 1) →
      (processFrameOld gamemode lastm selected dead t w dets).dead.lookup b.1
        = some false)
    ∧ ((selected ≠ [] ∧ ∀ x ∈ selected,
          ((processFrameOld gamemode lastm selected dead t w dets).dead.lookup x).getD
            false = true) →
        (processFrameOld gamemode lastm selected dead t w dets).gamemode
          = OldMode.endMode
        ∧ (lastm ≠ some OldMode.endMode →
            (processFrameOld gamemode lastm selected dead t w dets).modeMsg
              = some (send_mode_msg OldMode.endMode))) := by
  have hgate : detGateOld gamemode dets = dets := if_neg hmode
  cases dets with
  | nil => exact Option.noConfusion hb
  | cons d ds =>
    have hdead : (processFrameOld gamemode lastm selected dead t w (d :: ds)).dead
        = updateDead dead b := by
      simp [processFrameOld, hgate, hb]
      split <;> rfl
    have hlk : (updateDead dead b).lookup b.1
        = some (decide (-1 ≤ b.2.2 ∧ b.2.2 ≤ 1)) := lookup_updateDead dead b hkey
    refine ⟨?_, ?_, ?_⟩
    · intro hcc
      rw [hdead, hlk]
      simp [hcc]
    · intro hcc
      rw [hdead, hlk]
      simp [hcc]
    · intro hAD
      rw [hdead] at hAD
      have h1 : selected.isEmpty = false := by
        cases selected with
        | nil => exact absurd rfl hAD.1
        | cons a as => rfl
      have hall : allDead selected (updateDead dead b) = true := by
        unfold allDead
        rw [h1]
        simp only [Bool.not_false, Bool.true_and, List.all_eq_true]
        intro x hx
        exact hAD.2 x hx
      constructor
      · simp [processFrameOld, hgate, hb, hall]
      · intro hlast
        simp [processFrameOld, hgate, hb, hall, send_mode, hlast]

/-- A frame with the single selected target 3 exactly at the centre of a
width-640 frame. -/
def deadCentreDets : List (ℤ × List (ℚ × ℚ)) :=
  [(3, [(320, 0), (320, 0), (320, 0), (320, 0)])]

theorem c10_dead_and_end_witness :
    (((-1 : ℚ) ≤ 0 ∧ (0 : ℚ) ≤ 1) →
      (processFrameOld OldMode.attack (some OldMode.attack) [3] [(3, false)]
        0 640 deadCentreDets).dead.lookup 3 = some true)
    ∧ (¬((-1 : ℚ) ≤ 0 ∧ (0 : ℚ) ≤ 1) →
      (processFrameOld OldMode.attack (some OldMode.attack) [3] [(3, false)]
        0 640 deadCentreDets).dead.lookup 3 = some false)
    ∧ ((([3] : List ℤ) ≠ [] ∧ ∀ x ∈ ([3] : List ℤ),
          ((processFrameOld OldMode.attack (some OldMode.attack) [3] [(3, false)]
            0 640 deadCentreDets).dead.lookup x).getD false = true) →
        (processFrameOld OldMode.attack (some OldMode.attack) [3] [(3, false)]
          0 640 deadCentreDets).gamemode = OldMode.endMode
        ∧ (some OldMode.attack ≠ some OldMode.endMode →
            (processFrameOld OldMode.attack (some OldMode.attack) [3] [(3, false)]
              0 640 deadCentreDets).modeMsg
              = some (send_mode_msg OldMode.endMode))) :=
  c10_dead_and_end OldMode.attack (some OldMode.attack) [3] [(3, false)] 0 640
    deadCentreDets (3, 320, 0) (by decide)
    (by norm_num [bestOf, sortItems, mkItemsSelected, cornerMeanX, deadCentreDets,
      List.insertionSort])
    (by decide)

end Gantry
